import Mathlib

/-!
Shallow embedding of `src/build.py` (the popinparty theme plugin):
the card data model (`UserInfo`, `Content`, `Retweet`, `PopinPartyCard`),
the field normalizer `PopinPartyTheme.parse`, the image-aggregation
delegation `PopinPartyTheme.merge_pics`, and the renderer
`PopinPartyTheme.render`.

External collaborators (the upstream `Post` type, `web_embed_image`,
`convert_to_qr`, `datetime` formatting, the jinja template engine and the
headless-browser screenshot service) are out of scope of the repository and
are modelled from the spec as abstract but executable functions or as
function parameters.  The asynchronous control flow of the Python source is
sequential (one task, no internal parallelism), so it is embedded as pure
sequential code; the observable I/O calls of `parse` are recorded in an
explicit effect trace.
-/

set_option autoImplicit false

namespace PopinParty

/-- The image-like union type of the source:
`str | bytes | Path | BytesIO` (a URL string, raw bytes, a file path, or an
in-memory buffer).  Bytes are modelled as lists of naturals. -/
inductive ImgSrc where
  | url (s : String)
  | bytes (b : List Nat)
  | path (p : String)
  | buffer (b : List Nat)
  deriving DecidableEq, Repr

/-- Python truthiness of an image-like value: an empty string and an empty
`bytes` object are falsy; `Path` and `BytesIO` objects are always truthy. -/
def ImgSrc.truthy : ImgSrc → Bool
  | .url s => s ≠ ""
  | .bytes b => b ≠ []
  | .path _ => true
  | .buffer _ => true

/-- Python truthiness of an optional string: `None` and `""` are falsy. -/
def truthyOptStr : Option String → Bool
  | none => false
  | some s => s ≠ ""

/-- Python `a or b` on an optional string with a string fallback. -/
def pyOr (a : Option String) (b : String) : String :=
  match a with
  | some s => if s ≠ "" then s else b
  | none => b

/-- An injective textual rendering of an image-like value, standing in for
the base64 payload of its encoding. -/
def ImgSrc.payload : ImgSrc → String
  | .url s => "url:" ++ s
  | .bytes b => "bytes:" ++ String.intercalate "," (b.map toString)
  | .path p => "path:" ++ p
  | .buffer b => "buffer:" ++ String.intercalate "," (b.map toString)

/-- Modelled from the spec: the external helper `web_embed_image` (from
`nonebot_bison.theme.utils`, not part of this repository) converts a raw
image representation into a base64 embedded data reference, a string of the
form `data:...;base64,<payload>` usable directly in markup.  The base64
payload is abstracted as an injective rendering of the value. -/
def web_embed_image (img : ImgSrc) : String :=
  "data:image/png;base64," ++ img.payload

/-- Modelled from the spec: the external QR generator `convert_to_qr`
(`(text, background_color) -> image`, not part of this repository) produces
a QR-code image encoding the given text.  The produced image is modelled as
an in-memory buffer carrying the code points of the encoded text, so that
the encoded text is recoverable and distinct texts give distinct images. -/
def convert_to_qr (text : String) : ImgSrc :=
  ImgSrc.buffer (text.data.map Char.toNat)

/-- Modelled from the spec: the local-calendar formatting
`datetime.fromtimestamp(t).strftime("%Y-%m-%d %H:%M:%S")` of an epoch
instant (Python `datetime`, not part of this repository).  The local
calendar rendering is abstracted as an injective rendering of the instant;
the claims only concern which instant is formatted. -/
def formatLocalTime (t : Int) : String :=
  "YYYY-MM-DD HH:MM:SS@" ++ toString t

/-- Modelled from the spec: the upstream `Post` record consumed by the
theme (not part of this repository): nickname, description, avatar, title,
body content, image list, optional nested repost of the same shape, numeric
timestamp, source URL, and the platform name.  Recursive because a repost
is itself `Post`-shaped. -/
inductive Post where
  | mk (nickname : Option String) (description : Option String)
       (avatar : Option ImgSrc) (title : Option String) (content : String)
       (images : Option (List ImgSrc)) (repost : Option Post)
       (timestamp : Option Int) (url : Option String)
       (platformName : String) : Post

def Post.nickname : Post → Option String
  | .mk n _ _ _ _ _ _ _ _ _ => n

def Post.description : Post → Option String
  | .mk _ d _ _ _ _ _ _ _ _ => d

def Post.avatar : Post → Option ImgSrc
  | .mk _ _ a _ _ _ _ _ _ _ => a

def Post.title : Post → Option String
  | .mk _ _ _ t _ _ _ _ _ _ => t

def Post.content : Post → String
  | .mk _ _ _ _ c _ _ _ _ _ => c

def Post.images : Post → Option (List ImgSrc)
  | .mk _ _ _ _ _ i _ _ _ _ => i

def Post.repost : Post → Option Post
  | .mk _ _ _ _ _ _ r _ _ _ => r

def Post.timestamp : Post → Option Int
  | .mk _ _ _ _ _ _ _ ts _ _ => ts

def Post.url : Post → Option String
  | .mk _ _ _ _ _ _ _ _ u _ => u

def Post.platformName : Post → String
  | .mk _ _ _ _ _ _ _ _ _ pn => pn

/-- Replace the repost field of a post, keeping every other field. -/
def Post.withRepost : Post → Option Post → Post
  | .mk n d a t c i _ ts u pn, r => .mk n d a t c i r ts u pn

/-- 用户信息部分 (`UserInfo` pydantic model of the source). -/
structure UserInfo where
  name : String
  desc : Option String := none
  avatar : Option String := none
  deriving DecidableEq, Repr

/-- 内容部分 (`Content` pydantic model of the source). -/
structure Content where
  text : String
  images : List String := []
  title : Option String := none
  deriving DecidableEq, Repr

/-- 转发部分 (`Retweet` pydantic model of the source).  Its fields are
`author`, `content`, `images`, `avatar`; it has no field for a further
nested retweet. -/
structure Retweet where
  author : Option String := none
  content : Option String := none
  images : List String := []
  avatar : Option String := none
  deriving DecidableEq, Repr

/-- 新的卡片数据结构 (`PopinPartyCard` pydantic model of the source). -/
structure PopinPartyCard where
  user : UserInfo
  content : Content
  retweet : Option Retweet := none
  qr_code : String
  timestamp : String
  platform : String
  deriving DecidableEq, Repr

/-- The theme error types of `nonebot_bison.theme`, plus a case for a raw
lower-level exception that escapes `render` without being wrapped.  Raw
exceptions are identified by a string. -/
inductive ThemeError where
  | unsupported (msg : String)
  | renderError (msg : String) (cause : String)
  | raw (e : String)
  deriving DecidableEq, Repr

/-- Observable I/O calls performed by `parse`, in order: fetching the HTTP
client (`post.platform.ctx.get_client_for_static()`), and each invocation
of the image aggregator `merge_pics` (which internally calls
`is_pics_mergable` and possibly the HTTP-fetching `pic_merge`), for the
main content images or for the repost images. -/
inductive Effect where
  | getClient
  | mergeMain (images : List ImgSrc)
  | mergeRepost (images : List ImgSrc)
  deriving DecidableEq, Repr

/-- `PopinPartyTheme.merge_pics` of the source: delegate to the external
merge collaborator, here passed as the predicate `isMergable`
(`is_pics_mergable`) and the operation `picMerge` (`pic_merge`, with its
HTTP client dependency abstracted away).  If the predicate holds, return
the merged list; otherwise return the input sequence (as a fresh list). -/
def merge_pics (isMergable : List ImgSrc → Bool)
    (picMerge : List ImgSrc → List ImgSrc)
    (images : List ImgSrc) : List ImgSrc :=
  if isMergable images then picMerge images else images

/-- The per-image display-reference conversion used by the main-content
image loop of `parse`: a URL string is kept verbatim, anything else is
embedded as a data reference. -/
def displayRef (img : ImgSrc) : String :=
  match img with
  | .url s => s
  | _ => web_embed_image img

/-- The avatar resolution of `parse`, used for `post.avatar` and
`post.repost.avatar`: if the (truthy) avatar is a string it is used
verbatim, otherwise it is embedded; an absent or falsy avatar gives
`None`. -/
def resolveAvatar (avatar : Option ImgSrc) : Option String :=
  match avatar with
  | some a =>
    if a.truthy then
      match a with
      | .url s => some s
      | _ => some (web_embed_image a)
    else none
  | none => none

/-- The title-heading plus body text assembly of `parse`, used for the main
content and for the repost content: a truthy title is prepended as a
markdown heading followed by a blank line. -/
def assembleText (title : Option String) (body : String) : String :=
  (if truthyOptStr title then "## " ++ title.getD "" ++ "\n\n" else "") ++ body

/-- The 创建用户信息 block of `parse`: the nickname (validated truthy
beforehand), the description with its fixed fallback, and the resolved
avatar with its placeholder fallback (`avatar_url or placeholder`). -/
def mkUser (post : Post) : UserInfo :=
  { name := post.nickname.getD ""
    desc := some (pyOr post.description "分享美好生活～")
    avatar := some (pyOr (resolveAvatar post.avatar)
      "https://via.placeholder.com/100x100/FFB6C1/FFFFFF?text=头像") }

/-- The 处理主内容图片 block of `parse` (`if post.images:`, an absent or
empty list being falsy): the compositing list obtained from `merge_pics`,
the per-image display references, and the I/O effect of the aggregator
call. -/
def mainImagesStep (isMergable : List ImgSrc → Bool)
    (picMerge : List ImgSrc → List ImgSrc) (post : Post) :
    List ImgSrc × List String × List Effect :=
  let mainImgs := post.images.getD []
  if mainImgs.isEmpty then ([], [], [])
  else
    (merge_pics isMergable picMerge mainImgs,
     mainImgs.map displayRef,
     [Effect.mergeMain mainImgs])

/-- The 处理转发图片 block of `parse` (`if post.repost.images:`): the
retweet display list (note the source loop appends only `str` images and
silently drops the other variants), the merged repost images to be
appended to the outer compositing list, and the aggregator I/O effect. -/
def repostImagesStep (isMergable : List ImgSrc → Bool)
    (picMerge : List ImgSrc → List ImgSrc) (rp : Post) :
    List String × List ImgSrc × List Effect :=
  let rImgs := rp.images.getD []
  if rImgs.isEmpty then ([], [], [])
  else
    (rImgs.filterMap fun img =>
       match img with
       | ImgSrc.url s => some s
       | _ => none,
     merge_pics isMergable picMerge rImgs,
     [Effect.mergeRepost rImgs])

/-- The 处理转发 block of `parse` (`if post.repost:`, a present repost
object being truthy): the constructed `Retweet` built from author,
assembled content text, display images and resolved avatar, plus the
merged repost images and the aggregator effect. -/
def mkRetweet (isMergable : List ImgSrc → Bool)
    (picMerge : List ImgSrc → List ImgSrc) (post : Post) :
    Option Retweet × List ImgSrc × List Effect :=
  match post.repost with
  | some rp =>
    let sub := repostImagesStep isMergable picMerge rp
    (some { author := rp.nickname
            content := some (assembleText rp.title rp.content)
            images := sub.1
            avatar := resolveAvatar rp.avatar },
     sub.2.1, sub.2.2)
  | none => (none, [], [])

/-- The 处理时间戳 block of `parse`: `if post.timestamp:` (an absent
timestamp and the integer `0` are both falsy) formats the post's instant,
otherwise the current instant `now` (`datetime.now()`). -/
def timestampStr (now : Int) (post : Post) : String :=
  match post.timestamp with
  | some t => if t ≠ 0 then formatLocalTime t else formatLocalTime now
  | none => formatLocalTime now

/-- The QR-code field of the card: `web_embed_image(convert_to_qr(post.url
or "No URL", back_color=(255, 255, 255)))`. -/
def qrCode (post : Post) : String :=
  web_embed_image (convert_to_qr (pyOr post.url "No URL"))

/-- `PopinPartyTheme.parse` of the source, translated block by block (the
blocks are the named definitions above, in source order).  `isMergable` and
`picMerge` are the external merge collaborators, `now` is the instant
returned by `datetime.now()` at the render moment.  The result is the
Python return value (`(card, images)`, or the raised theme error) paired
with the trace of observable I/O effects. -/
def parse (isMergable : List ImgSrc → Bool)
    (picMerge : List ImgSrc → List ImgSrc) (now : Int) (post : Post) :
    Except ThemeError (PopinPartyCard × List ImgSrc) × List Effect :=
  -- 基础验证: `if not post.nickname: raise ThemeRenderUnsupportError(...)`
  if truthyOptStr post.nickname = false then
    (.error (.unsupported "post.nickname is None"), [])
  else
    -- `http_client = await post.platform.ctx.get_client_for_static()`
    let mainStep := mainImagesStep isMergable picMerge post
    -- 创建内容
    let content : Content :=
      { text := assembleText post.title post.content
        images := mainStep.2.1
        title := post.title }
    let repostStep := mkRetweet isMergable picMerge post
    -- 创建卡片
    let card : PopinPartyCard :=
      { user := mkUser post
        content := content
        retweet := repostStep.1
        qr_code := qrCode post
        timestamp := timestampStr now post
        platform := post.platformName }
    (.ok (card, mainStep.1 ++ repostStep.2.1),
     Effect.getClient :: (mainStep.2.2 ++ repostStep.2.2))

/-- The viewport mapping handed to `get_new_page` by `render`. -/
structure Viewport where
  width : Nat
  height : Nat
  device_scale_factor : Nat
  deriving DecidableEq, Repr

/-- The outbound message segments of `render` (exactly one image segment on
success). -/
inductive MsgSegment where
  | image (data : List Nat)
  deriving DecidableEq, Repr

/-- `PopinPartyTheme.render` of the source.  `templateRender` models
`template_env.get_template` followed by `template.render_async` with
context `(card, bang_dream_logo)`; `screenshot` models the whole
`get_new_page` block (goto, set_content, wait, screenshot) given the
viewport configuration and the html.  Only the `screenshot` block is inside
the `try`; a failing `templateRender` escapes as a raw exception.  The
second component of the result records the viewport configuration passed to
the screenshot collaborator, when that stage is reached. -/
def render (isMergable : List ImgSrc → Bool)
    (picMerge : List ImgSrc → List ImgSrc) (now : Int)
    (bang_dream_logo : String)
    (templateRender : PopinPartyCard → String → Except String String)
    (screenshot : Viewport → String → Except String (List Nat))
    (post : Post) : Except ThemeError (List MsgSegment) × Option Viewport :=
  match (parse isMergable picMerge now post).1 with
  | .error e => (.error e, none)
  | .ok (card, _mergedImages) =>
    match templateRender card bang_dream_logo with
    | .error e => (.error (.raw e), none)
    | .ok html =>
      -- 根据内容动态调整视口大小
      let h1 : Nat := 600
      let h2 : Nat := if card.content.images.isEmpty then h1
                      else h1 + card.content.images.length * 50
      let base_height : Nat := if card.retweet.isSome then h2 + 150 else h2
      let pages : Viewport :=
        { width := 450, height := min base_height 1200
          device_scale_factor := 2 }
      match screenshot pages html with
      | .error e =>
        (.error (.renderError ("Render error: " ++ e) e), some pages)
      | .ok shot => (.ok [MsgSegment.image shot], some pages)

/-! ### Concrete fixtures for witnesses and counterexamples -/

/-- A merge predicate that never merges. -/
def noMerge : List ImgSrc → Bool := fun _ => false

/-- A template collaborator that always succeeds. -/
def tplOk : PopinPartyCard → String → Except String String :=
  fun _ _ => .ok "html"

/-- A screenshot collaborator that always succeeds. -/
def shotOk : Viewport → String → Except String (List Nat) :=
  fun _ _ => .ok [7]

/-- A minimal valid post: nickname `"A"`, content `"hello"`, nothing
else. -/
def post0 : Post :=
  .mk (some "A") none none none "hello" none none none none "weibo"

/-- A post with absent nickname. -/
def postNoNick : Post :=
  .mk none none none none "hello" none none none none "weibo"

/-! ### General lemmas about `parse` -/

/-- A successful `parse` (truthy nickname) is exactly the assembly of its
blocks. -/
theorem parse_ok_eq (isMergable : List ImgSrc → Bool)
    (picMerge : List ImgSrc → List ImgSrc) (now : Int) (post : Post)
    (hn : truthyOptStr post.nickname = true) :
    parse isMergable picMerge now post
      = (.ok ({ user := mkUser post
                content :=
                  { text := assembleText post.title post.content
                    images := (mainImagesStep isMergable picMerge post).2.1
                    title := post.title }
                retweet := (mkRetweet isMergable picMerge post).1
                qr_code := qrCode post
                timestamp := timestampStr now post
                platform := post.platformName },
              (mainImagesStep isMergable picMerge post).1
                ++ (mkRetweet isMergable picMerge post).2.1),
         Effect.getClient :: ((mainImagesStep isMergable picMerge post).2.2
            ++ (mkRetweet isMergable picMerge post).2.2)) := by
  simp [parse, hn]

/-- A successful `parse` forces a truthy nickname and determines the card
and the compositing list as the assembly of the blocks. -/
theorem parse_ok_card_eq (isMergable : List ImgSrc → Bool)
    (picMerge : List ImgSrc → List ImgSrc) (now : Int) (post : Post)
    (card : PopinPartyCard) (imgs : List ImgSrc)
    (hp : (parse isMergable picMerge now post).1 = .ok (card, imgs)) :
    truthyOptStr post.nickname = true
    ∧ card = { user := mkUser post
               content :=
                 { text := assembleText post.title post.content
                   images := (mainImagesStep isMergable picMerge post).2.1
                   title := post.title }
               retweet := (mkRetweet isMergable picMerge post).1
               qr_code := qrCode post
               timestamp := timestampStr now post
               platform := post.platformName }
    ∧ imgs = (mainImagesStep isMergable picMerge post).1
        ++ (mkRetweet isMergable picMerge post).2.1 := by
  cases hb : truthyOptStr post.nickname
  · simp [parse, hb] at hp
  · rw [parse_ok_eq _ _ _ _ hb] at hp
    simp only [] at hp
    rw [Except.ok.injEq, Prod.mk.injEq] at hp
    exact ⟨rfl, hp.1.symm, hp.2.symm⟩

/-- The constructed retweet is present exactly when the source repost
is. -/
theorem mkRetweet_isSome (isMergable : List ImgSrc → Bool)
    (picMerge : List ImgSrc → List ImgSrc) (post : Post) :
    (mkRetweet isMergable picMerge post).1.isSome = post.repost.isSome := by
  cases h : post.repost <;> simp [mkRetweet, h]

/-! ### Claim theorems -/

/-- C2: for every post whose nickname is absent or the empty string,
`parse` raises the unsupported-input error (`ThemeRenderUnsupportError`)
with an empty I/O trace — no client fetch and no aggregator call happen,
no card is constructed — and `render`, whatever the downstream
collaborators, propagates that error without reaching the template or
screenshot stages (no viewport is ever configured). -/
theorem c2_empty_nickname_unsupported_before_io
    (isMergable : List ImgSrc → Bool) (picMerge : List ImgSrc → List ImgSrc)
    (now : Int) (logo : String)
    (templateRender : PopinPartyCard → String → Except String String)
    (screenshot : Viewport → String → Except String (List Nat))
    (post : Post) (h : truthyOptStr post.nickname = false) :
    parse isMergable picMerge now post
      = (.error (.unsupported "post.nickname is None"), [])
    ∧ render isMergable picMerge now logo templateRender screenshot post
      = (.error (.unsupported "post.nickname is None"), none) := by
  refine ⟨by simp [parse, h], ?_⟩
  simp [render, parse, h]

/-- Witness for C2 at a concrete nickname-less post. -/
theorem c2_witness :
    parse noMerge id 0 postNoNick
      = (.error (.unsupported "post.nickname is None"), [])
    ∧ render noMerge id 0 "" tplOk shotOk postNoNick
      = (.error (.unsupported "post.nickname is None"), none) :=
  c2_empty_nickname_unsupported_before_io noMerge id 0 "" tplOk shotOk
    postNoNick rfl

/-- C8: when the merge predicate reports the set not mergeable,
`merge_pics` returns its input sequence unchanged — same elements in the
same order.  (The embedding is pure, matching the source's delegation
layer, which never mutates its input and returns a fresh `list(pics)`.) -/
theorem c8_merge_pics_passthrough (isMergable : List ImgSrc → Bool)
    (picMerge : List ImgSrc → List ImgSrc) (images : List ImgSrc)
    (h : isMergable images = false) :
    merge_pics isMergable picMerge images = images := by
  simp [merge_pics, h]

/-- Witness for C8 at a concrete two-element image sequence. -/
theorem c8_witness :
    noMerge [ImgSrc.url "a", ImgSrc.bytes [1]] = false
    ∧ merge_pics noMerge (fun _ => []) [ImgSrc.url "a", ImgSrc.bytes [1]]
        = [ImgSrc.url "a", ImgSrc.bytes [1]] :=
  ⟨rfl, c8_merge_pics_passthrough noMerge (fun _ => []) _ rfl⟩

/-- C10: `parse` reads at most one level of repost nesting: its entire
result (card, compositing list and trace) is unchanged under replacing
whatever repost is nested inside the post's own repost, and the produced
`Retweet` structure has no field that could carry a nested retweet, so the
card's retweet never contains a further retweet. -/
theorem c10_nested_repost_ignored (isMergable : List ImgSrc → Bool)
    (picMerge : List ImgSrc → List ImgSrc) (now : Int)
    (p rp : Post) (r1 r2 : Option Post) :
    parse isMergable picMerge now (p.withRepost (some (rp.withRepost r1)))
      = parse isMergable picMerge now
          (p.withRepost (some (rp.withRepost r2))) := by
  cases p
  cases rp
  rfl

/-- All four fields of a retweet are empty (absent, the empty string, or
the empty list). -/
def retweetAllEmpty (r : Retweet) : Bool :=
  r.author.getD "" == "" && r.content.getD "" == ""
    && r.images.isEmpty && r.avatar.getD "" == ""

/-- A degenerate repost: no nickname, empty body, no title, no images, no
avatar. -/
def repostEmpty : Post :=
  .mk none none none none "" none none none none "weibo"

/-- A valid post whose repost is `repostEmpty`. -/
def post5 : Post :=
  .mk (some "A") none none none "hello" none (some repostEmpty) none none
    "weibo"

/-- C5 counterexample: parsing a post whose repost carries no nickname, an
empty body, no title, no images and no avatar constructs a retweet all of
whose fields are empty, refuting the claim's "never the case that all of
its fields are empty". -/
theorem c5_counterexample :
    ((parse noMerge id 0 post5).1.map fun r => r.1.retweet)
      = .ok (some { author := none, content := some "", images := [],
                    avatar := none })
    ∧ retweetAllEmpty
        { author := none, content := some "", images := [], avatar := none }
        = true := by
  exact ⟨rfl, rfl⟩

/-- C5 (amended): for every post, the card produced by a successful
`parse` has a retweet exactly when the source post carries a repost; the
retweet can, however, be constructed with all fields empty when the repost
itself is degenerate. -/
theorem c5_retweet_iff_repost (isMergable : List ImgSrc → Bool)
    (picMerge : List ImgSrc → List ImgSrc) (now : Int) (post : Post)
    (card : PopinPartyCard) (imgs : List ImgSrc)
    (hp : (parse isMergable picMerge now post).1 = .ok (card, imgs)) :
    card.retweet.isSome = post.repost.isSome := by
  obtain ⟨-, hc, -⟩ := parse_ok_card_eq _ _ _ _ _ _ hp
  subst hc
  exact mkRetweet_isSome _ _ _

/-- Witness for C5's amended theorem: on `post5` the repost is present and
so is the constructed retweet. -/
theorem c5_witness :
    (parse noMerge id 0 post5).1.map (fun r => r.1.retweet.isSome)
      = .ok post5.repost.isSome := by
  have hp : (parse noMerge id 0 post5).1
      = .ok (({ user := mkUser post5
                content :=
                  { text := assembleText post5.title post5.content
                    images := (mainImagesStep noMerge id post5).2.1
                    title := post5.title }
                retweet := (mkRetweet noMerge id post5).1
                qr_code := qrCode post5
                timestamp := timestampStr 0 post5
                platform := post5.platformName }, []) :
          PopinPartyCard × List ImgSrc) := rfl
  rw [hp, Except.map]
  rw [c5_retweet_iff_repost noMerge id 0 post5 _ _ hp]

/-- C9: for every post whose images field is absent or empty (and whose
nickname is truthy, so that `parse` succeeds), `parse` performs no
image-aggregator call for the main content (no `mergeMain` effect is in
the trace), the card's `content.images` is empty, and when additionally no
repost is present the returned compositing image list is empty. -/
theorem c9_no_main_images (isMergable : List ImgSrc → Bool)
    (picMerge : List ImgSrc → List ImgSrc) (now : Int) (post : Post)
    (hn : truthyOptStr post.nickname = true)
    (him : post.images.getD [] = []) :
    (∃ card imgs, (parse isMergable picMerge now post).1 = .ok (card, imgs)
       ∧ card.content.images = []
       ∧ (post.repost = none → imgs = []))
    ∧ ∀ l, Effect.mergeMain l ∉ (parse isMergable picMerge now post).2 := by
  have hm : mainImagesStep isMergable picMerge post = ([], [], []) := by
    simp [mainImagesStep, him]
  rw [parse_ok_eq _ _ _ _ hn]
  constructor
  · refine ⟨_, _, rfl, by simp [hm], fun hrp => ?_⟩
    simp [hm, mkRetweet, hrp]
  · intro l
    simp only [hm]
    cases h : post.repost with
    | none => simp [mkRetweet, h]
    | some rp =>
      simp only [mkRetweet, h, repostImagesStep]
      split <;> simp

/-- C3: for every post that renders successfully, the viewport passed to
the screenshot collaborator has width `450`, device pixel scale factor
`2`, and height `min (600 + 50*k + 150*r) 1200` where `k` is the number of
display-list content images of the parsed card and `r` marks the presence
of a retweet. -/
theorem c3_render_viewport (isMergable : List ImgSrc → Bool)
    (picMerge : List ImgSrc → List ImgSrc) (now : Int) (logo : String)
    (templateRender : PopinPartyCard → String → Except String String)
    (screenshot : Viewport → String → Except String (List Nat))
    (post : Post) (card : PopinPartyCard) (imgs : List ImgSrc)
    (msgs : List MsgSegment)
    (hp : (parse isMergable picMerge now post).1 = .ok (card, imgs))
    (hr : (render isMergable picMerge now logo templateRender screenshot
            post).1 = .ok msgs) :
    (render isMergable picMerge now logo templateRender screenshot post).2
      = some { width := 450
               height := min (600 + 50 * card.content.images.length
                 + (if card.retweet.isSome then 150 else 0)) 1200
               device_scale_factor := 2 } := by
  simp only [render, hp] at hr ⊢
  cases htpl : templateRender card logo with
  | error e => simp [htpl] at hr
  | ok html =>
    simp only [htpl] at hr ⊢
    split <;>
    · cases hrt : card.retweet.isSome <;>
        cases hi : card.content.images <;>
          simp [hrt, hi, Nat.mul_comm]

/-- Witness for C3: the minimal post (no images, no repost) renders with
viewport 450 by 600 at device scale 2. -/
theorem c3_witness :
    (render noMerge id 0 "" tplOk shotOk post0).2
      = some { width := 450, height := 600, device_scale_factor := 2 } := by
  have hp : (parse noMerge id 0 post0).1
      = .ok (({ user := mkUser post0
                content := { text := assembleText post0.title post0.content
                             images := (mainImagesStep noMerge id post0).2.1
                             title := post0.title }
                retweet := (mkRetweet noMerge id post0).1
                qr_code := qrCode post0
                timestamp := timestampStr 0 post0
                platform := post0.platformName }, []) :
          PopinPartyCard × List ImgSrc) := rfl
  have hr : (render noMerge id 0 "" tplOk shotOk post0).1
      = .ok [MsgSegment.image [7]] := rfl
  exact (c3_render_viewport noMerge id 0 "" tplOk shotOk post0 _ _
    [MsgSegment.image [7]] hp hr).trans (by decide)

/-- C1 counterexample: with a template collaborator that raises, the
exception escapes `render` as the raw lower-level exception instead of
being re-raised as a `ThemeRenderError`: the try block of the source
encloses only the screenshot stage, not `template.render_async`. -/
theorem c1_counterexample :
    (render noMerge id 0 "" (fun _ _ => .error "TemplateError") shotOk
        post0).1
      = .error (.raw "TemplateError") := rfl

/-- C1 (amended): every exception raised during screenshot capture inside
`render` is caught and re-raised as the domain render error
(`ThemeRenderError`) carrying the original exception as its cause; an
exception raised during template rendering, which happens outside the try
block, propagates as the raw lower-level exception. -/
theorem c1_render_error_policy (isMergable : List ImgSrc → Bool)
    (picMerge : List ImgSrc → List ImgSrc) (now : Int) (logo : String)
    (templateRender : PopinPartyCard → String → Except String String)
    (e : String) (post : Post) (card : PopinPartyCard)
    (imgs : List ImgSrc) (html : String)
    (hp : (parse isMergable picMerge now post).1 = .ok (card, imgs))
    (ht : templateRender card logo = .ok html) :
    (render isMergable picMerge now logo templateRender
        (fun _ _ => .error e) post).1
      = .error (.renderError ("Render error: " ++ e) e)
    ∧ (render isMergable picMerge now logo (fun _ _ => .error e)
        (fun _ _ => .ok []) post).1
      = .error (.raw e) := by
  constructor
  · simp [render, hp, ht]
  · simp [render, hp]

/-- Witness for C1's amended theorem at a concrete post and concrete
failing collaborators. -/
theorem c1_witness :
    (render noMerge id 0 "" tplOk (fun _ _ => .error "boom") post0).1
      = .error (.renderError ("Render error: " ++ "boom") "boom")
    ∧ (render noMerge id 0 "" (fun _ _ => .error "boom")
        (fun _ _ => .ok []) post0).1
      = .error (.raw "boom") :=
  c1_render_error_policy noMerge id 0 "" tplOk "boom" post0 _ _ "html"
    rfl rfl

/-- A repost carrying a single non-URL (bytes) image. -/
def repost4 : Post :=
  .mk (some "B") none none none "hi" (some [ImgSrc.bytes [9]]) none none
    none "weibo"

/-- A valid post whose repost is `repost4`. -/
def post4 : Post :=
  .mk (some "A") none none none "hello" none (some repost4) none none
    "weibo"

/-- C4 counterexample: a repost carrying one bytes image yields an empty
retweet display list — the source loop keeps only URL strings and silently
drops the other variants instead of embedding them — although display-list
resolution of that image is the one-element embedded list. -/
theorem c4_counterexample :
    ((parse noMerge id 0 post4).1.map
        fun r => r.1.retweet.map Retweet.images)
      = .ok (some ([] : List String))
    ∧ (repost4.images.getD []).map displayRef
      = [web_embed_image (ImgSrc.bytes [9])] :=
  ⟨rfl, rfl⟩

/-- C4 (amended): the retweet display image list keeps, in order, exactly
those repost source images that are URL strings; non-URL repost images
(bytes, paths, buffers) are omitted from the display list (they reach only
the compositing list, through the aggregator). -/
theorem c4_retweet_images_url_only (isMergable : List ImgSrc → Bool)
    (picMerge : List ImgSrc → List ImgSrc) (now : Int) (post rp : Post)
    (card : PopinPartyCard) (imgs : List ImgSrc)
    (hrp : post.repost = some rp)
    (hp : (parse isMergable picMerge now post).1 = .ok (card, imgs)) :
    card.retweet.map Retweet.images
      = some ((rp.images.getD []).filterMap fun img =>
          match img with
          | ImgSrc.url s => some s
          | _ => none) := by
  obtain ⟨-, hc, -⟩ := parse_ok_card_eq _ _ _ _ _ _ hp
  subst hc
  simp only [mkRetweet, hrp]
  cases him : (rp.images.getD []).isEmpty with
  | true =>
    have hnil : rp.images.getD [] = [] := by simpa using him
    simp [repostImagesStep, hnil]
  | false => simp [repostImagesStep, him]

/-- A repost with one URL image and one bytes image. -/
def repost4b : Post :=
  .mk (some "B") none none none "hi"
    (some [ImgSrc.url "u", ImgSrc.bytes [9]]) none none none "weibo"

/-- A valid post whose repost is `repost4b`. -/
def post4b : Post :=
  .mk (some "A") none none none "hello" none (some repost4b) none none
    "weibo"

/-- Witness for C4's amended theorem: a repost with one URL image and one
bytes image gives the one-element URL-only display list. -/
theorem c4_witness :
    ((parse noMerge id 0 post4b).1.map
        fun r => r.1.retweet.map Retweet.images)
      = .ok (some ["u"]) := by
  obtain ⟨card, imgs, hp⟩ :
      ∃ c i, (parse noMerge id 0 post4b).1 = .ok (c, i) := ⟨_, _, rfl⟩
  rw [hp]
  simp only [Except.map]
  rw [c4_retweet_images_url_only noMerge id 0 post4b repost4b card imgs
        rfl hp]
  rfl

/-- A post carrying the numeric timestamp `0` (the Unix epoch). -/
def post6 : Post :=
  .mk (some "A") none none none "hello" none none (some 0) none "weibo"

/-- A post carrying the numeric timestamp `5`. -/
def post6b : Post :=
  .mk (some "A") none none none "hello" none none (some 5) none "weibo"

/-- C6 counterexample: a post carrying the numeric timestamp `0` — a valid
instant — is formatted as the current time at the render moment (here the
instant `1700000000`), not as the instant `0`: the source's truthiness
test `if post.timestamp:` treats `0` like an absent timestamp. -/
theorem c6_counterexample :
    ((parse noMerge id 1700000000 post6).1.map fun r => r.1.timestamp)
      = .ok (formatLocalTime 1700000000)
    ∧ formatLocalTime 1700000000 ≠ formatLocalTime 0 := by
  refine ⟨rfl, ?_⟩
  decide

/-- C6 (amended): for every post carrying a nonzero numeric timestamp the
card's timestamp is that instant formatted in the local
`YYYY-MM-DD HH:MM:SS` form; for a post with the timestamp `0` or no
timestamp, it is the current instant at the render moment in the same
form. -/
theorem c6_timestamp_selection (isMergable : List ImgSrc → Bool)
    (picMerge : List ImgSrc → List ImgSrc) (now : Int) (post : Post)
    (card : PopinPartyCard) (imgs : List ImgSrc)
    (hp : (parse isMergable picMerge now post).1 = .ok (card, imgs)) :
    card.timestamp = formatLocalTime
      (match post.timestamp with
       | some t => if t ≠ 0 then t else now
       | none => now) := by
  obtain ⟨-, hc, -⟩ := parse_ok_card_eq _ _ _ _ _ _ hp
  subst hc
  show timestampStr now post = _
  cases h : post.timestamp with
  | none => simp [timestampStr, h]
  | some t => by_cases ht : t = 0 <;> simp [timestampStr, h, ht]

/-- Witness for C6's amended theorem at the nonzero timestamp `5`. -/
theorem c6_witness :
    ((parse noMerge id 0 post6b).1.map fun r => r.1.timestamp)
      = .ok (formatLocalTime 5) := by
  obtain ⟨card, imgs, hp⟩ :
      ∃ c i, (parse noMerge id 0 post6b).1 = .ok (c, i) := ⟨_, _, rfl⟩
  rw [hp]
  simp only [Except.map]
  rw [c6_timestamp_selection noMerge id 0 post6b card imgs hp]
  rfl

/-- A post whose url field holds the empty string. -/
def post7 : Post :=
  .mk (some "A") none none none "hello" none none none (some "") "weibo"

/-- C7 counterexample: for a post whose url field holds the empty string —
a present URL — the QR code encodes the literal fallback text `"No URL"`,
not the post's URL: the source's `post.url or "No URL"` treats an empty
URL like an absent one. -/
theorem c7_counterexample :
    ((parse noMerge id 0 post7).1.map fun r => r.1.qr_code)
      = .ok (web_embed_image (convert_to_qr "No URL"))
    ∧ web_embed_image (convert_to_qr "No URL")
        ≠ web_embed_image (convert_to_qr "") := by
  refine ⟨rfl, ?_⟩
  decide

/-- C7 (amended): the card's qr_code field is the embedded data reference
(beginning with the data-URL scheme, never a bare URL) of a QR image that
encodes the post's URL when it is present and non-empty, and the non-empty
literal fallback `"No URL"` when the URL is absent or empty. -/
theorem c7_qr_code_embedded (isMergable : List ImgSrc → Bool)
    (picMerge : List ImgSrc → List ImgSrc) (now : Int) (post : Post)
    (card : PopinPartyCard) (imgs : List ImgSrc)
    (hp : (parse isMergable picMerge now post).1 = .ok (card, imgs)) :
    card.qr_code = web_embed_image (convert_to_qr (pyOr post.url "No URL"))
    ∧ card.qr_code.data.take "data:image/png;base64,".data.length
        = "data:image/png;base64,".data
    ∧ pyOr post.url "No URL" ≠ "" := by
  obtain ⟨-, hc, -⟩ := parse_ok_card_eq _ _ _ _ _ _ hp
  subst hc
  refine ⟨rfl, ?_, ?_⟩
  · show (web_embed_image _).data.take _ = _
    rw [web_embed_image, String.data_append, List.take_left]
  · cases hu : post.url with
    | none => simp [pyOr]
    | some u => by_cases he : u = "" <;> simp [pyOr, he]

/-- Witness for C7's amended theorem at a post with no URL. -/
theorem c7_witness :
    ((parse noMerge id 0 post0).1.map fun r => r.1.qr_code)
      = .ok (web_embed_image (convert_to_qr "No URL"))
    ∧ "No URL" ≠ "" := by
  obtain ⟨card, imgs, hp⟩ :
      ∃ c i, (parse noMerge id 0 post0).1 = .ok (c, i) := ⟨_, _, rfl⟩
  refine ⟨?_, by decide⟩
  rw [hp]
  simp only [Except.map]
  rw [(c7_qr_code_embedded noMerge id 0 post0 card imgs hp).1]
  rfl

/-- Witness for C9 at the minimal post (no images, no repost). -/
theorem c9_witness :
    truthyOptStr post0.nickname = true ∧ post0.images.getD [] = []
    ∧ ((∃ card imgs, (parse noMerge id 0 post0).1 = .ok (card, imgs)
          ∧ card.content.images = []
          ∧ (post0.repost = none → imgs = []))
        ∧ ∀ l, Effect.mergeMain l ∉ (parse noMerge id 0 post0).2) :=
  ⟨rfl, rfl, c9_no_main_images noMerge id 0 post0 rfl rfl⟩

end PopinParty
